import Mathlib

/-
Verification of the authenticated HTTP client pipeline of the frontend
boilerplate: the request interceptor, the response error interceptor with
its token-refresh coordination (src/api/interceptors.ts), the auth slice of
the store (src/store/slices/authSlice.ts) and the session rehydration at
page load (src/components/auth-provider.tsx).

The runtime is single-threaded and event-loop driven; all concurrency is
interleaving of continuations.  We embed the module state of
interceptors.ts (isRefreshing, failedQueue, localStorage, plus observables:
toasts shown, locations navigated to, refresh network calls issued,
requests replayed and their Authorization header at send time, and the
final outcome delivered to each caller) as an explicit state record, and
the interceptor bodies as state transformers.  The await of the refresh
network call at interceptors.ts line 96 is a suspension point: issuing the
call is one step, and its settlement (fulfil or reject) is delivered later
as a separate event.
-/

namespace Interceptors

/-- Truthiness of a localStorage read: getItem yields null (none here) or a
string, and a string is truthy exactly when it is non-empty.  Used for the
checks at interceptors.ts lines 34 and 86. -/
def truthy : Option String → Bool
  | none => false
  | some s => s ≠ ""

/-- The two persisted credentials, stored under the fixed localStorage keys
access_token and refresh_token. -/
structure Storage where
  access_token : Option String
  refresh_token : Option String
deriving DecidableEq

/-- The slice of an axios request config the interceptors look at: the
request url and its Authorization header (some value, possibly the
explicitly cleared empty string, or absent). -/
structure ReqConfig where
  url : String
  authorization : Option String
deriving DecidableEq

/-- Helper for substring search on character lists. -/
def hasSubstr : List Char → List Char → Bool
  | [], sub => sub.isEmpty
  | c :: t, sub => sub.isPrefixOf (c :: t) || hasSubstr t sub

/-- Model of the JavaScript String.prototype.includes, as used in the check
originalRequest.url?.includes at interceptors.ts line 148. -/
def includes (s sub : String) : Bool := hasSubstr s.data sub.data

/-- The request interceptor (interceptors.ts lines 24-45): reads
access_token from localStorage and, when it is truthy, overwrites the
Authorization header with a Bearer value; otherwise the config passes
through unchanged. -/
def requestInterceptor (st : Storage) (config : ReqConfig) : ReqConfig :=
  match st.access_token with
  | some token =>
      if token ≠ "" then { config with authorization := some ("Bearer " ++ token) }
      else config
  | none => config

/-- User status as in authSlice.ts. -/
inductive UserStatus
  | active
  | inactive
deriving DecidableEq

/-- User role as in authSlice.ts. -/
inductive UserRole
  | admin
  | user
deriving DecidableEq

/-- The User record of authSlice.ts (optional timestamp fields omitted; no
claim mentions them). -/
structure User where
  id : Nat
  email : String
  first_name : String
  last_name : String
  status : UserStatus
  role : UserRole
  is_admin : Bool
deriving DecidableEq

/-- The Session part of the store: user, permissions, authenticated flag
(authSlice.ts). -/
structure Session where
  user : Option User
  permissions : List String
  isAuthenticated : Bool
deriving DecidableEq

/-- The auth slice initial values (authSlice.ts lines 25-27), which are
also the values set by logout (lines 37-42).  The auth slice is excluded
from the persist partialize (store/index.ts), so a fresh page load starts
the store from exactly these values. -/
def initialSession : Session :=
  { user := none, permissions := [], isAuthenticated := false }

/-- Why a pending or triggering request ultimately failed through the
refresh path: the throw at interceptors.ts line 88 when no refresh token is
stored, or the refresh network call itself rejecting. -/
inductive RefreshError
  | noRefreshCredential
  | networkFailure
deriving DecidableEq

/-- Final outcome delivered to a caller whose request entered the error
interceptor: rejected with the refresh error (lines 15, 125, 130), or
rejected with its own original error (line 155). -/
inductive Outcome
  | rejectedRefresh (err : RefreshError)
  | rejectedOriginal (status : Option Nat)
deriving DecidableEq

/-- The data the error interceptor reads off a failed response: an
identifier for the originating request (standing for the identity of the
originalRequest config object), the request config, the response status
(none for network-level failures where error.response is undefined), the
optional detail field of the response body, and the error message. -/
structure FailedResponse where
  reqId : Nat
  config : ReqConfig
  status : Option Nat
  detail : Option String
  message : String
deriving DecidableEq

/-- The embedded program state: the module-level mutable state of
interceptors.ts (isRefreshing, failedQueue), the in-flight trigger request
of the current refresh, the set of request identities carrying _retry,
localStorage, the store session, and the observables (location navigated
to, toasts shown, refresh network calls issued, replays dispatched with
the Authorization header they carry at send time, outcomes delivered). -/
structure InterceptorState where
  isRefreshing : Bool
  failedQueue : List (Nat × ReqConfig)
  trigger : Option (Nat × ReqConfig)
  retried : List Nat
  storage : Storage
  session : Session
  location : Option String
  toasts : List String
  refreshCalls : Nat
  replays : List (Nat × Option String)
  outcomes : List (Nat × Outcome)
deriving DecidableEq

/-- errorMessage computation at interceptors.ts lines 142-145: the detail
field of the response body if truthy, else the error message if truthy,
else a generic fallback. -/
def errorMessage (detail : Option String) (message : String) : String :=
  match detail with
  | some d => if d ≠ "" then d else if message ≠ "" then message else "An error occurred"
  | none => if message ≠ "" then message else "An error occurred"

/-- The identifier of the in-flight triggering request, as a list (empty
when no refresh is in flight). -/
def triggerIds (s : InterceptorState) : List Nat :=
  match s.trigger with
  | some rc => [rc.1]
  | none => []

/-- processQueue(error) with a non-null error (interceptors.ts lines
12-21): every queued continuation is rejected with that error and the
queue is reset to empty. -/
def processQueueErr (err : RefreshError) (s : InterceptorState) : InterceptorState :=
  { s with failedQueue := [],
           outcomes := s.outcomes ++
             s.failedQueue.map (fun rc => (rc.1, Outcome.rejectedRefresh err)) }

/-- processQueue(null) (line 121): every queued continuation is resolved;
each queued caller then replays its original request through apiClient
(line 72), so the request interceptor recomputes its Authorization header
from the storage current at send time. -/
def processQueueOk (s : InterceptorState) : InterceptorState :=
  { s with failedQueue := [],
           replays := s.replays ++
             s.failedQueue.map
               (fun rc => (rc.1, (requestInterceptor s.storage rc.2).authorization)) }

/-- localStorage.removeItem for both credentials (lines 127-128). -/
def clearTokens (s : InterceptorState) : InterceptorState :=
  { s with storage := { access_token := none, refresh_token := none } }

/-- Assignment to window.location.href (lines 129 and 138). -/
def navigate (target : String) (s : InterceptorState) : InterceptorState :=
  { s with location := some target }

/-- return Promise.reject(refreshError) (line 130): the triggering request
itself fails with the refresh error. -/
def rejectTrigger (err : RefreshError) (s : InterceptorState) : InterceptorState :=
  match s.trigger with
  | some rc => { s with outcomes := s.outcomes ++ [(rc.1, Outcome.rejectedRefresh err)] }
  | none => s

/-- The finally block (lines 131-133): the refresh-in-progress flag is
cleared unconditionally once the refresh settles; the local
originalRequest binding of that refresh also goes out of scope. -/
def clearRefreshing (s : InterceptorState) : InterceptorState :=
  { s with isRefreshing := false, trigger := none }

/-- The catch block (lines 123-130) followed by the finally: reject every
queued entry, erase both persisted credentials, navigate to the login
route, reject the triggering request with the refresh error, then clear
the flag. -/
def handleRefreshErr (err : RefreshError) (s : InterceptorState) : InterceptorState :=
  clearRefreshing (rejectTrigger err (navigate "/login" (clearTokens (processQueueErr err s))))

/-- Lines 106-119: when the response carries a truthy access_token,
persist it and update the Authorization header of the triggering request
for its retry (lines 111-115); when it carries a truthy refresh_token,
persist that too (lines 117-119). -/
def persistNewTokens (newAccessToken newRefreshToken : String)
    (s : InterceptorState) : InterceptorState :=
  let s1 :=
    if newAccessToken ≠ "" then
      { s with storage := { s.storage with access_token := some newAccessToken },
               trigger :=
                 match s.trigger with
                 | some rc =>
                     some (rc.1, { rc.2 with authorization := some ("Bearer " ++ newAccessToken) })
                 | none => none }
    else s
  if newRefreshToken ≠ "" then
    { s1 with storage := { s1.storage with refresh_token := some newRefreshToken } }
  else s1

/-- Line 122: return apiClient(originalRequest).  The retry of the
triggering request is dispatched synchronously in the current turn,
through the request interceptor, so its Authorization header is recomputed
from current storage. -/
def replayTrigger (s : InterceptorState) : InterceptorState :=
  match s.trigger with
  | some rc =>
      { s with replays := s.replays ++ [(rc.1, (requestInterceptor s.storage rc.2).authorization)] }
  | none => s

/-- The fulfilled path of the try block (lines 106-122) followed by the
finally: persist the new credentials, dispatch the retry of the triggering
request, resolve the queue (whose callers replay their original requests
against the already-updated storage), and clear the flag.  The trigger
retry at line 122 is dispatched synchronously before the queued callers,
resolved at line 121, run their replay continuations as microtasks. -/
def handleRefreshOk (newAccessToken newRefreshToken : String)
    (s : InterceptorState) : InterceptorState :=
  clearRefreshing (processQueueOk (replayTrigger (persistNewTokens newAccessToken newRefreshToken s)))

/-- The response error interceptor (interceptors.ts lines 52-156) up to
its first suspension point.  For a 401 on a not-yet-retried request: queue
it when a refresh is in flight (lines 66-77); otherwise mark it retried,
set the flag (lines 79-80) and either issue the refresh network call
(recorded in refreshCalls and trigger; its settlement arrives later as a
separate event) or, when no truthy refresh token is stored, throw into the
same catch block as a failed refresh (lines 86-89, 123-133).  Every other
failure falls through to the 403 redirect (lines 137-139), the toast
(lines 141-153, suppressed for 401s and for auth-endpoint urls), and
rejection with the original error (line 155). -/
def handleError (e : FailedResponse) (s : InterceptorState) : InterceptorState :=
  if e.status = some 401 ∧ e.reqId ∉ s.retried then
    if s.isRefreshing then
      { s with failedQueue := s.failedQueue ++ [(e.reqId, e.config)] }
    else if truthy s.storage.refresh_token then
      { s with retried := e.reqId :: s.retried, isRefreshing := true,
               refreshCalls := s.refreshCalls + 1, trigger := some (e.reqId, e.config) }
    else
      handleRefreshErr RefreshError.noRefreshCredential
        { s with retried := e.reqId :: s.retried, isRefreshing := true,
                 trigger := some (e.reqId, e.config) }
  else
    let s1 := if e.status = some 403 then navigate "/unauthorized" s else s
    let s2 :=
      if e.status ≠ some 401 ∧ includes e.config.url "/auth/" = false then
        { s1 with toasts := s1.toasts ++ [errorMessage e.detail e.message] }
      else s1
    { s2 with outcomes := s2.outcomes ++ [(e.reqId, Outcome.rejectedOriginal e.status)] }

/-- An axios response as seen by the fulfilled response interceptor. -/
structure AxResponse where
  status : Nat
  body : String
deriving DecidableEq

/-- The fulfilled response interceptor (lines 49-51): return response. -/
def responseFulfilled (response : AxResponse) : AxResponse := response

/-- The fulfilled handler applied within the pipeline: it receives only
the response and references no module state, so the state rides along
unchanged. -/
def onResponse (response : AxResponse) (s : InterceptorState) :
    AxResponse × InterceptorState :=
  (responseFulfilled response, s)

/-- Events delivered by the event loop to the embedded interceptor: a
failed response entering the error interceptor, or the settlement of the
in-flight refresh network call. -/
inductive Event
  | fail (e : FailedResponse)
  | refreshOk (newAccessToken newRefreshToken : String)
  | refreshFail
deriving DecidableEq

/-- One event-loop turn of the embedded interceptor. -/
def step (s : InterceptorState) (ev : Event) : InterceptorState :=
  match ev with
  | .fail e => handleError e s
  | .refreshOk t rt => handleRefreshOk t rt s
  | .refreshFail => handleRefreshErr RefreshError.networkFailure s

/-- Run a sequence of event-loop turns. -/
def run (s : InterceptorState) (evs : List Event) : InterceptorState :=
  evs.foldl step s

/-- The module state at load: flag clear, queue empty, no retries marked,
given persisted storage, fresh store session, nothing observed yet. -/
def initState (st : Storage) : InterceptorState :=
  { isRefreshing := false, failedQueue := [], trigger := none, retried := [],
    storage := st, session := initialSession, location := none, toasts := [],
    refreshCalls := 0, replays := [], outcomes := [] }

/-- initAuth of auth-provider.tsx, run at every page load: with a truthy
stored access token the current user is fetched (me is the server
outcome); on success the session is populated, admins receiving the three
users permissions; on failure both tokens are removed and the session
stays at its initial values; with no truthy token nothing happens.
Returns the storage and store session of the freshly loaded page. -/
def initAuth (st : Storage) (me : Option User) : Storage × Session :=
  if truthy st.access_token then
    match me with
    | some u =>
        (st,
         { user := some u,
           permissions :=
             if u.is_admin then ["users:read", "users:write", "users:delete"] else [],
           isAuthenticated := true })
    | none => ({ access_token := none, refresh_token := none }, initialSession)
  else (st, initialSession)

/-- The refresh request as issued at interceptors.ts lines 96-104: a post
to /v1/auth/refresh with an explicitly cleared Authorization header, meant
to avoid sending the expired token. -/
def refreshRequestConfig : ReqConfig :=
  { url := "/v1/auth/refresh", authorization := some "" }

/-- A burst of failed responses, all with status 401, one per identifier
in the list, with the given configs, details and messages. -/
def burst401 (cfg : Nat → ReqConfig) (det : Nat → Option String)
    (msg : Nat → String) (ids : List Nat) : List Event :=
  ids.map (fun i =>
    Event.fail { reqId := i, config := cfg i, status := some 401,
                 detail := det i, message := msg i })

/-- Concrete fixture: a plain API request config carrying the pre-refresh
token. -/
def exCfg : ReqConfig := { url := "/v1/items", authorization := some "Bearer T1" }

/-- Concrete fixture: storage holding both credentials. -/
def exStorage : Storage := { access_token := some "T1", refresh_token := some "R1" }

/-- Concrete fixture: a 401 on a plain API request. -/
def exFail401 : FailedResponse :=
  { reqId := 0, config := exCfg, status := some 401, detail := none,
    message := "Unauthorized" }

/-- Concrete fixture: a second 401 on another plain API request. -/
def exFail401b : FailedResponse :=
  { reqId := 1, config := exCfg, status := some 401, detail := none,
    message := "Unauthorized" }

/-- Concrete fixture: the state after the first 401 launched a refresh
that is still in flight. -/
def exMidRefresh : InterceptorState := run (initState exStorage) [Event.fail exFail401]

/-- Concrete fixture: a refreshing state with two queued callers. -/
def exRefreshing : InterceptorState :=
  { initState exStorage with
      isRefreshing := true, retried := [0],
      trigger := some (0, exCfg), failedQueue := [(1, exCfg), (2, exCfg)],
      refreshCalls := 1 }

/-- Concrete fixture: a 401 response to the refresh network call itself. -/
def refreshCall401 : FailedResponse :=
  { reqId := 3, config := refreshRequestConfig, status := some 401,
    detail := some "Invalid refresh token",
    message := "Request failed with status code 401" }

/-- Concrete fixture: a 403 on a plain API request. -/
def forbidden403 : FailedResponse :=
  { reqId := 0, config := { url := "/v1/users", authorization := some "Bearer T1" },
    status := some 403, detail := some "Forbidden",
    message := "Request failed with status code 403" }

/-- Concrete fixture: an admin user as the current-user endpoint would
return it. -/
def exUser : User :=
  { id := 7, email := "a@b.c", first_name := "A", last_name := "B",
    status := UserStatus.active, role := UserRole.admin, is_admin := true }

example :
    requestInterceptor { access_token := some "T1", refresh_token := some "R1" }
      refreshRequestConfig =
    { url := "/v1/auth/refresh", authorization := some "Bearer T1" } := by decide

example : includes "/v1/auth/refresh" "/auth/" = true := by decide

example : includes "/v1/users" "/auth/" = false := by decide

/-- A qualifying 401 arriving while a refresh is in flight is appended to
the queue and nothing else changes. -/
lemma handleError_queued (e : FailedResponse) (s : InterceptorState)
    (h1 : e.status = some 401) (h2 : e.reqId ∉ s.retried) (h3 : s.isRefreshing = true) :
    handleError e s = { s with failedQueue := s.failedQueue ++ [(e.reqId, e.config)] } := by
  simp [handleError, h1, h2, h3]

/-- A qualifying 401 arriving while idle, with a truthy refresh token
stored, marks the request retried, sets the flag, records the trigger and
issues the refresh network call. -/
lemma handleError_launch (e : FailedResponse) (s : InterceptorState)
    (h1 : e.status = some 401) (h2 : e.reqId ∉ s.retried) (h3 : s.isRefreshing = false)
    (h4 : truthy s.storage.refresh_token = true) :
    handleError e s =
      { s with retried := e.reqId :: s.retried, isRefreshing := true,
               refreshCalls := s.refreshCalls + 1, trigger := some (e.reqId, e.config) } := by
  simp [handleError, h1, h2, h3, h4]

/-- Full characterization of the failed-refresh path. -/
lemma handleRefreshErr_eq (err : RefreshError) (s : InterceptorState) :
    handleRefreshErr err s =
      { s with isRefreshing := false, trigger := none, failedQueue := [],
               storage := { access_token := none, refresh_token := none },
               location := some "/login",
               outcomes := s.outcomes ++
                 s.failedQueue.map (fun rc => (rc.1, Outcome.rejectedRefresh err)) ++
                 (triggerIds s).map (fun i => (i, Outcome.rejectedRefresh err)) } := by
  cases htr : s.trigger with
  | none =>
      simp [handleRefreshErr, processQueueErr, clearTokens, navigate, rejectTrigger,
            clearRefreshing, triggerIds, htr]
  | some rc =>
      simp [handleRefreshErr, processQueueErr, clearTokens, navigate, rejectTrigger,
            clearRefreshing, triggerIds, htr]

/-- Full characterization of the successful-refresh path when the response
carries a truthy (non-empty) access token. -/
lemma handleRefreshOk_eq (t2 rt2 : String) (s : InterceptorState) (ht2 : t2 ≠ "") :
    handleRefreshOk t2 rt2 s =
      { s with isRefreshing := false, trigger := none, failedQueue := [],
               storage := { access_token := some t2,
                            refresh_token :=
                              if rt2 ≠ "" then some rt2 else s.storage.refresh_token },
               replays := s.replays ++
                 (triggerIds s).map (fun i => (i, some ("Bearer " ++ t2))) ++
                 s.failedQueue.map (fun rc => (rc.1, some ("Bearer " ++ t2))) } := by
  cases htr : s.trigger with
  | none =>
      by_cases hrt : rt2 = "" <;>
        simp [handleRefreshOk, persistNewTokens, replayTrigger, processQueueOk,
              clearRefreshing, requestInterceptor, triggerIds, htr, ht2, hrt]
  | some rc =>
      by_cases hrt : rt2 = "" <;>
        simp [handleRefreshOk, persistNewTokens, replayTrigger, processQueueOk,
              clearRefreshing, requestInterceptor, triggerIds, htr, ht2, hrt]

/-- A Bearer header value is never the cleared empty header. -/
lemma bearer_ne_empty (t : String) : "Bearer " ++ t ≠ "" := by
  intro h
  have h2 := congrArg String.length h
  rw [String.length_append] at h2
  simp at h2
  exact absurd h2.1 (by decide)

/-- Bearer header values determine the token they carry. -/
lemma bearer_inj {a b : String} (h : "Bearer " ++ a = "Bearer " ++ b) : a = b := by
  have h2 := congrArg String.data h
  rw [String.data_append, String.data_append] at h2
  exact String.ext (List.append_cancel_left h2)

/-- Unfolding one event-loop turn. -/
lemma run_cons (s : InterceptorState) (ev : Event) (evs : List Event) :
    run s (ev :: evs) = run (step s ev) evs := rfl

/-- Splitting a run. -/
lemma run_append (s : InterceptorState) (a b : List Event) :
    run s (a ++ b) = run (run s a) b := List.foldl_append ..

/-- A 401 for a request already marked retried falls through the refresh
branch: no toast (the suppression covers 401s), no navigation, and the
caller is rejected with the original error. -/
lemma handleError_retried401 (e : FailedResponse) (s : InterceptorState)
    (h1 : e.status = some 401) (h2 : e.reqId ∈ s.retried) :
    handleError e s =
      { s with outcomes := s.outcomes ++ [(e.reqId, Outcome.rejectedOriginal (some 401))] } := by
  have hcond : ¬(e.status = some 401 ∧ e.reqId ∉ s.retried) := by simp [h1, h2]
  unfold handleError
  rw [if_neg hcond]
  simp [h1, navigate]

/-- The fall-through branch of the error interceptor leaves the refresh
machinery, the storage and the session untouched. -/
lemma handleError_fallthrough (e : FailedResponse) (s : InterceptorState)
    (h : ¬(e.status = some 401 ∧ e.reqId ∉ s.retried)) :
    (handleError e s).failedQueue = s.failedQueue ∧
    (handleError e s).isRefreshing = s.isRefreshing ∧
    (handleError e s).refreshCalls = s.refreshCalls ∧
    (handleError e s).storage = s.storage ∧
    (handleError e s).session = s.session := by
  simp only [handleError, if_neg h]
  refine ⟨?_, ?_, ?_, ?_, ?_⟩ <;> (split <;> split <;> simp [navigate])

/-- Each step preserves the queue-nonempty-implies-refreshing invariant. -/
lemma inv_step (s : InterceptorState) (ev : Event)
    (h : s.failedQueue ≠ [] → s.isRefreshing = true) :
    (step s ev).failedQueue ≠ [] → (step s ev).isRefreshing = true := by
  cases ev with
  | fail e =>
      by_cases h1 : e.status = some 401 ∧ e.reqId ∉ s.retried
      · by_cases h2 : s.isRefreshing = true
        · simp [step, handleError, h1, h2]
        · have h2' : s.isRefreshing = false := by
            cases hb : s.isRefreshing
            · rfl
            · exact absurd hb h2
          by_cases h3 : truthy s.storage.refresh_token = true
          · simp [step, handleError, h1, h2', h3]
          · have h3' : truthy s.storage.refresh_token = false := by
              cases hb : truthy s.storage.refresh_token
              · rfl
              · exact absurd hb h3
            simp [step, handleError, h1, h2', h3', handleRefreshErr_eq]
      · have hft := handleError_fallthrough e s h1
        intro hq
        rw [show (step s (.fail e)).failedQueue = s.failedQueue from hft.1] at hq
        rw [show (step s (.fail e)).isRefreshing = s.isRefreshing from hft.2.1]
        exact h hq
  | refreshOk t rt =>
      simp [step, handleRefreshOk, persistNewTokens, replayTrigger, processQueueOk,
            clearRefreshing]
  | refreshFail =>
      simp [step, handleRefreshErr_eq]

/-- The queue-nonempty-implies-refreshing invariant is preserved by any
run. -/
lemma inv_run (evs : List Event) (s : InterceptorState)
    (h : s.failedQueue ≠ [] → s.isRefreshing = true) :
    (run s evs).failedQueue ≠ [] → (run s evs).isRefreshing = true := by
  induction evs generalizing s with
  | nil => exact h
  | cons ev tl ih => exact ih (step s ev) (inv_step s ev h)

/-- A qualifying 401 arriving while idle with no truthy refresh token
stored: the request is marked retried, the flag toggles and the throw at
line 88 lands in the catch block, so the caller fails with the
no-refresh-credential error, credentials are erased, the location becomes
the login route, and no refresh network call is issued. -/
lemma handleError_noToken (e : FailedResponse) (s : InterceptorState)
    (h1 : e.status = some 401) (h2 : e.reqId ∉ s.retried) (h3 : s.isRefreshing = false)
    (h4 : truthy s.storage.refresh_token = false) :
    handleError e s =
      { s with retried := e.reqId :: s.retried, isRefreshing := false, trigger := none,
               failedQueue := [],
               storage := { access_token := none, refresh_token := none },
               location := some "/login",
               outcomes := s.outcomes ++
                 s.failedQueue.map
                   (fun rc => (rc.1, Outcome.rejectedRefresh RefreshError.noRefreshCredential)) ++
                 [(e.reqId, Outcome.rejectedRefresh RefreshError.noRefreshCredential)] } := by
  simp [handleError, h1, h2, h3, h4, handleRefreshErr_eq, triggerIds]

/-- With no truthy refresh token stored, a failed response never issues a
refresh network call, and the stored refresh token stays non-truthy. -/
lemma handleError_noRefreshToken (e : FailedResponse) (s : InterceptorState)
    (hrt : truthy s.storage.refresh_token = false) :
    (handleError e s).refreshCalls = s.refreshCalls ∧
    truthy (handleError e s).storage.refresh_token = false := by
  by_cases h1 : e.status = some 401 ∧ e.reqId ∉ s.retried
  · by_cases h2 : s.isRefreshing = true
    · simp [handleError, h1, h2, hrt]
    · have h2' : s.isRefreshing = false := by
        cases hb : s.isRefreshing
        · rfl
        · exact absurd hb h2
      rw [handleError_noToken e s h1.1 h1.2 h2' hrt]
      exact ⟨rfl, rfl⟩
  · have hft := handleError_fallthrough e s h1
    exact ⟨hft.2.2.1, by rw [hft.2.2.2.1]; exact hrt⟩

/-- With no truthy refresh token stored, a run made of failed-response
events only issues no refresh network call. -/
lemma run_failOnly_no_refresh (evs : List Event) (s : InterceptorState)
    (hrt : truthy s.storage.refresh_token = false)
    (hf : ∀ ev ∈ evs, ∃ e, ev = Event.fail e) :
    (run s evs).refreshCalls = s.refreshCalls := by
  induction evs generalizing s with
  | nil => rfl
  | cons ev tl ih =>
      obtain ⟨e, rfl⟩ := hf ev (List.mem_cons_self ev tl)
      have h := handleError_noRefreshToken e s hrt
      rw [run_cons]
      rw [ih (step s (Event.fail e)) (by simpa [step] using h.2)
            (fun x hx => hf x (List.mem_cons_of_mem _ hx))]
      simpa [step] using h.1

/-- While a refresh is in flight, a burst of qualifying 401s is appended
to the queue in arrival order and nothing else changes. -/
lemma run_fail401_refreshing (ids : List Nat) (cfg : Nat → ReqConfig)
    (det : Nat → Option String) (msg : Nat → String) (s : InterceptorState)
    (h3 : s.isRefreshing = true) (hfresh : ∀ j ∈ ids, j ∉ s.retried) :
    run s (burst401 cfg det msg ids) =
      { s with failedQueue := s.failedQueue ++ ids.map (fun i => (i, cfg i)) } := by
  induction ids generalizing s with
  | nil => simp [run, burst401]
  | cons j tl ih =>
      have hq := handleError_queued
        { reqId := j, config := cfg j, status := some 401, detail := det j, message := msg j }
        s rfl (hfresh j (List.mem_cons_self j tl)) h3
      have hstep : step s (Event.fail { reqId := j, config := cfg j, status := some 401, detail := det j, message := msg j }) = { s with failedQueue := s.failedQueue ++ [(j, cfg j)] } := hq
      simp only [burst401, List.map_cons, run_cons] at ih ⊢
      rw [hstep]
      rw [ih { s with failedQueue := s.failedQueue ++ [(j, cfg j)] } h3
            (fun x hx => hfresh x (List.mem_cons_of_mem _ hx))]
      simp

/-- Persisting the refreshed credentials touches neither the flag, nor the
queue, nor the dispatched replays, nor the identity of the trigger. -/
lemma persistNewTokens_untouched (t2 rt2 : String) (s : InterceptorState) :
    (persistNewTokens t2 rt2 s).isRefreshing = s.isRefreshing ∧
    (persistNewTokens t2 rt2 s).failedQueue = s.failedQueue ∧
    (persistNewTokens t2 rt2 s).replays = s.replays ∧
    triggerIds (persistNewTokens t2 rt2 s) = triggerIds s := by
  by_cases h1 : t2 = "" <;> by_cases h2 : rt2 = "" <;>
    cases htr : s.trigger <;> simp [persistNewTokens, triggerIds, h1, h2, htr]

/-- Dispatching the trigger retry appends exactly its identifier to the
replay log and touches neither the flag nor the queue. -/
lemma replayTrigger_untouched (s : InterceptorState) :
    (replayTrigger s).isRefreshing = s.isRefreshing ∧
    (replayTrigger s).failedQueue = s.failedQueue ∧
    (replayTrigger s).replays.map Prod.fst = s.replays.map Prod.fst ++ triggerIds s := by
  cases htr : s.trigger <;> simp [replayTrigger, triggerIds, htr]

/-- C1: for a set of concurrent requests that each receive a qualifying
401 while no refresh is in progress, the first one sets the
refresh-in-progress flag and issues the single refresh network call,
every subsequent qualifying 401 while the flag is set is appended to the
pending queue instead of starting a second refresh, and once the refresh
resolves with a truthy access token all of them are replayed carrying the
post-refresh Bearer credential. -/
theorem single_refresh_under_concurrent_401s
    (i0 : Nat) (rest : List Nat) (cfg : Nat → ReqConfig)
    (det : Nat → Option String) (msg : Nat → String)
    (st : Storage) (hrt : truthy st.refresh_token = true)
    (hfresh : ∀ j ∈ rest, j ≠ i0) (t2 rt2 : String) (ht2 : t2 ≠ "") :
    (run (initState st) (burst401 cfg det msg (i0 :: rest))).isRefreshing = true ∧
    (run (initState st) (burst401 cfg det msg (i0 :: rest))).refreshCalls = 1 ∧
    (run (initState st) (burst401 cfg det msg (i0 :: rest))).failedQueue =
      rest.map (fun i => (i, cfg i)) ∧
    (run (initState st)
        (burst401 cfg det msg (i0 :: rest) ++ [Event.refreshOk t2 rt2])).refreshCalls = 1 ∧
    (run (initState st)
        (burst401 cfg det msg (i0 :: rest) ++ [Event.refreshOk t2 rt2])).isRefreshing = false ∧
    (run (initState st)
        (burst401 cfg det msg (i0 :: rest) ++ [Event.refreshOk t2 rt2])).failedQueue = [] ∧
    (run (initState st)
        (burst401 cfg det msg (i0 :: rest) ++ [Event.refreshOk t2 rt2])).replays =
      (i0 :: rest).map (fun i => (i, some ("Bearer " ++ t2))) := by
  have hA := handleError_launch
    { reqId := i0, config := cfg i0, status := some 401, detail := det i0, message := msg i0 }
    (initState st) rfl (by simp [initState]) rfl hrt
  have hMid : run (initState st) (burst401 cfg det msg (i0 :: rest)) =
      { initState st with
          retried := [i0], isRefreshing := true, refreshCalls := 1,
          trigger := some (i0, cfg i0), failedQueue := rest.map (fun i => (i, cfg i)) } := by
    have hsplit : burst401 cfg det msg (i0 :: rest) =
        Event.fail { reqId := i0, config := cfg i0, status := some 401,
                     detail := det i0, message := msg i0 } :: burst401 cfg det msg rest := by
      simp [burst401]
    rw [hsplit, run_cons]
    have hstep : step (initState st) (Event.fail { reqId := i0, config := cfg i0, status := some 401, detail := det i0, message := msg i0 }) = { initState st with retried := [i0], isRefreshing := true, refreshCalls := 1, trigger := some (i0, cfg i0) } := by
      rw [show step (initState st) (Event.fail { reqId := i0, config := cfg i0, status := some 401, detail := det i0, message := msg i0 }) = handleError { reqId := i0, config := cfg i0, status := some 401, detail := det i0, message := msg i0 } (initState st) from rfl, hA]
      simp [initState]
    rw [hstep]
    rw [run_fail401_refreshing rest cfg det msg
          { initState st with retried := [i0], isRefreshing := true, refreshCalls := 1,
                              trigger := some (i0, cfg i0) }
          rfl (by intro j hj; simp [initState]; exact hfresh j hj)]
    simp [initState]
  have hFin : run (initState st)
      (burst401 cfg det msg (i0 :: rest) ++ [Event.refreshOk t2 rt2]) =
      handleRefreshOk t2 rt2 (run (initState st) (burst401 cfg det msg (i0 :: rest))) := by
    rw [run_append]; rfl
  rw [hFin, hMid, handleRefreshOk_eq t2 rt2 _ ht2]
  refine ⟨rfl, rfl, rfl, rfl, rfl, rfl, ?_⟩
  simp [initState, triggerIds, List.map_map, Function.comp_def]

/-- C1 witness: three concurrent 401s, one refresh, all three replayed
with the refreshed Bearer token. -/
theorem single_refresh_under_concurrent_401s_witness :
    (run (initState exStorage)
        (burst401 (fun _ => exCfg) (fun _ => none) (fun _ => "Unauthorized") [0, 1, 2] ++
          [Event.refreshOk "T2" "R2"])).refreshCalls = 1 ∧
    (run (initState exStorage)
        (burst401 (fun _ => exCfg) (fun _ => none) (fun _ => "Unauthorized") [0, 1, 2] ++
          [Event.refreshOk "T2" "R2"])).replays =
      [(0, some "Bearer T2"), (1, some "Bearer T2"), (2, some "Bearer T2")] := by
  have h := single_refresh_under_concurrent_401s 0 [1, 2] (fun _ => exCfg)
    (fun _ => none) (fun _ => "Unauthorized") exStorage (by decide) (by decide)
    "T2" "R2" (by decide)
  refine ⟨h.2.2.2.1, ?_⟩
  rw [h.2.2.2.2.2.2]
  decide

/-- C2: contrary to the specified irrecoverable handling, a 401 response
to the refresh network call itself (delivered while the refresh is in
flight, so isRefreshing is still true) takes the queueing branch of the
error interceptor: it is appended to the pending queue and the handler
performs no navigation, no credential erasure, no session change and no
further refresh call — the catch block that would log the user out is
never reached for it. -/
theorem refresh_call_401_queued_not_logged_out :
    exMidRefresh.isRefreshing = true ∧
    handleError refreshCall401 exMidRefresh =
      { exMidRefresh with failedQueue := [(3, refreshRequestConfig)] } ∧
    (handleError refreshCall401 exMidRefresh).location = none ∧
    (handleError refreshCall401 exMidRefresh).storage = exMidRefresh.storage ∧
    (handleError refreshCall401 exMidRefresh).refreshCalls = exMidRefresh.refreshCalls ∧
    (handleError refreshCall401 exMidRefresh).session = exMidRefresh.session := by
  decide

/-- C3: when the refresh settles with a failure the coordinator returns to
Idle, rejects every entry of the pending queue and the triggering request,
erases both persisted credentials and navigates to the login route; after
the resulting full page load the store session is at its cleared initial
values whatever the current-user endpoint would answer, and no later
sequence of failed responses ever issues another refresh network call. -/
theorem refresh_failure_logs_out (err : RefreshError) (s : InterceptorState) :
    (handleRefreshErr err s).isRefreshing = false ∧
    (handleRefreshErr err s).failedQueue = [] ∧
    (handleRefreshErr err s).outcomes = s.outcomes ++
      s.failedQueue.map (fun rc => (rc.1, Outcome.rejectedRefresh err)) ++
      (triggerIds s).map (fun i => (i, Outcome.rejectedRefresh err)) ∧
    (handleRefreshErr err s).storage = { access_token := none, refresh_token := none } ∧
    (handleRefreshErr err s).location = some "/login" ∧
    (∀ me, (initAuth (handleRefreshErr err s).storage me).2 = initialSession) ∧
    (∀ evs, (∀ ev ∈ evs, ∃ e, ev = Event.fail e) →
      (run (handleRefreshErr err s) evs).refreshCalls =
        (handleRefreshErr err s).refreshCalls) := by
  rw [handleRefreshErr_eq]
  refine ⟨rfl, rfl, rfl, rfl, rfl, ?_, ?_⟩
  · intro me
    simp [initAuth, truthy]
  · intro evs hf
    exact run_failOnly_no_refresh evs _ (by simp [truthy]) hf

/-- C3 witness: a concrete failed refresh over a refreshing state with two
queued callers, a concrete page load afterwards, and one subsequent failed
response issuing no refresh call. -/
theorem refresh_failure_logs_out_witness :
    (handleRefreshErr RefreshError.networkFailure exRefreshing).storage =
      { access_token := none, refresh_token := none } ∧
    (initAuth (handleRefreshErr RefreshError.networkFailure exRefreshing).storage
        (some exUser)).2 = initialSession ∧
    (run (handleRefreshErr RefreshError.networkFailure exRefreshing)
        [Event.fail exFail401b]).refreshCalls =
      (handleRefreshErr RefreshError.networkFailure exRefreshing).refreshCalls := by
  have h := refresh_failure_logs_out RefreshError.networkFailure exRefreshing
  exact ⟨h.2.2.2.1, h.2.2.2.2.2.1 (some exUser),
    h.2.2.2.2.2.2 [Event.fail exFail401b]
      (by intro ev hv; rw [List.mem_singleton] at hv; exact ⟨exFail401b, hv⟩)⟩

/-- C4: after a successful refresh carrying a truthy access token, the new
credential is persisted strictly before the pending queue is drained (the
success path factors through persistNewTokens first, whose output already
stores the new token while the queue is still intact), and every replay
dispatched by the drain reads the credential fresh at send time, so it
carries the new Bearer value and never the pre-refresh one when the two
differ. -/
theorem refresh_persist_before_drain
    (s : InterceptorState) (t1 t2 rt2 : String)
    (hacc : s.storage.access_token = some t1) (ht2 : t2 ≠ "") :
    handleRefreshOk t2 rt2 s =
      clearRefreshing (processQueueOk (replayTrigger (persistNewTokens t2 rt2 s))) ∧
    (persistNewTokens t2 rt2 s).storage.access_token = some t2 ∧
    (persistNewTokens t2 rt2 s).failedQueue = s.failedQueue ∧
    (∃ sent, (handleRefreshOk t2 rt2 s).replays = s.replays ++ sent ∧
      ∀ p ∈ sent, p.2 = some ("Bearer " ++ t2) ∧
        (t1 ≠ t2 → p.2 ≠ some ("Bearer " ++ t1))) := by
  refine ⟨rfl, ?_, ?_, ?_⟩
  · by_cases h2 : rt2 = "" <;> cases htr : s.trigger <;>
      simp [persistNewTokens, ht2, h2, htr]
  · exact (persistNewTokens_untouched t2 rt2 s).2.1
  · refine ⟨(triggerIds s).map (fun i => (i, some ("Bearer " ++ t2))) ++
      s.failedQueue.map (fun rc => (rc.1, some ("Bearer " ++ t2))), ?_, ?_⟩
    · rw [handleRefreshOk_eq t2 rt2 s ht2]
      simp [List.append_assoc]
    · intro p hp
      have hsnd : p.2 = some ("Bearer " ++ t2) := by
        rcases List.mem_append.mp hp with h | h
        · obtain ⟨i, _, rfl⟩ := List.mem_map.mp h
          rfl
        · obtain ⟨rc, _, rfl⟩ := List.mem_map.mp h
          rfl
      refine ⟨hsnd, ?_⟩
      intro hne heq
      rw [hsnd] at heq
      exact hne (bearer_inj (Option.some.inj heq)).symm

/-- C4 witness: a concrete refreshing state holding the pre-refresh token
T1 with two queued callers; the refresh resolves with T2. -/
theorem refresh_persist_before_drain_witness :
    (persistNewTokens "T2" "R2" exRefreshing).storage.access_token = some "T2" ∧
    (∃ sent, (handleRefreshOk "T2" "R2" exRefreshing).replays =
        exRefreshing.replays ++ sent ∧
      ∀ p ∈ sent, p.2 = some ("Bearer " ++ "T2") ∧
        ("T1" ≠ "T2" → p.2 ≠ some ("Bearer " ++ "T1"))) := by
  have h := refresh_persist_before_drain exRefreshing "T1" "T2" "R2" (by decide) (by decide)
  exact ⟨h.2.1, h.2.2.2⟩

/-- C5 counterexample: a 403 on a plain endpoint does navigate to the
unauthorized route, but it also pushes a user-visible toast — the redirect
is not silent, refuting the no-toast part of the claim. -/
theorem forbidden_shows_toast :
    (handleError forbidden403 (initState exStorage)).location = some "/unauthorized" ∧
    (handleError forbidden403 (initState exStorage)).toasts = ["Forbidden"] := by
  decide

/-- C5 amended: for every 403 response the classifier navigates to the
unauthorized route, issues zero refresh calls and leaves the queue, flag,
credentials and session unchanged; however a toast with the error message
is shown whenever the request url is not an auth endpoint (the toast
suppression at lines 147-153 only covers 401s and auth urls). -/
theorem forbidden_redirect_no_refresh (e : FailedResponse) (s : InterceptorState)
    (h403 : e.status = some 403) :
    (handleError e s).location = some "/unauthorized" ∧
    (handleError e s).refreshCalls = s.refreshCalls ∧
    (handleError e s).isRefreshing = s.isRefreshing ∧
    (handleError e s).failedQueue = s.failedQueue ∧
    (handleError e s).storage = s.storage ∧
    (handleError e s).session = s.session ∧
    (includes e.config.url "/auth/" = false →
      (handleError e s).toasts = s.toasts ++ [errorMessage e.detail e.message]) ∧
    (includes e.config.url "/auth/" = true → (handleError e s).toasts = s.toasts) := by
  have hcond : ¬(e.status = some 401 ∧ e.reqId ∉ s.retried) := by simp [h403]
  unfold handleError
  rw [if_neg hcond]
  by_cases hinc : includes e.config.url "/auth/" = false
  · simp [h403, hinc, navigate]
  · have hinc' : includes e.config.url "/auth/" = true := by
      cases hb : includes e.config.url "/auth/"
      · exact absurd hb hinc
      · rfl
    simp [h403, hinc', navigate]

/-- C5 witness: the amended statement at the concrete 403 fixture. -/
theorem forbidden_redirect_no_refresh_witness :
    (handleError forbidden403 (initState exStorage)).location = some "/unauthorized" ∧
    (handleError forbidden403 (initState exStorage)).refreshCalls = 0 ∧
    (handleError forbidden403 (initState exStorage)).toasts = ["Forbidden"] := by
  have h := forbidden_redirect_no_refresh forbidden403 (initState exStorage) rfl
  refine ⟨h.1, h.2.1, ?_⟩
  rw [h.2.2.2.2.2.2.1 (by decide)]
  decide

/-- C6: a qualifying 401 arriving while idle with no truthy persisted
refresh credential goes directly to failure handling: no refresh network
call is issued and the caller fails with the no-refresh-credential error,
with credentials erased and the location set to the login route. -/
theorem no_refresh_credential_fails_fast (e : FailedResponse) (s : InterceptorState)
    (h401 : e.status = some 401) (hfresh : e.reqId ∉ s.retried)
    (hidle : s.isRefreshing = false) (hrt : truthy s.storage.refresh_token = false) :
    (handleError e s).refreshCalls = s.refreshCalls ∧
    (handleError e s).outcomes = s.outcomes ++
      s.failedQueue.map
        (fun rc => (rc.1, Outcome.rejectedRefresh RefreshError.noRefreshCredential)) ++
      [(e.reqId, Outcome.rejectedRefresh RefreshError.noRefreshCredential)] ∧
    (handleError e s).storage = { access_token := none, refresh_token := none } ∧
    (handleError e s).location = some "/login" ∧
    (handleError e s).isRefreshing = false := by
  rw [handleError_noToken e s h401 hfresh hidle hrt]
  exact ⟨rfl, rfl, rfl, rfl, rfl⟩

/-- C6 witness: a concrete 401 with an access token but no refresh token
stored. -/
theorem no_refresh_credential_fails_fast_witness :
    (handleError exFail401
        (initState { access_token := some "T1", refresh_token := none })).refreshCalls = 0 ∧
    (handleError exFail401
        (initState { access_token := some "T1", refresh_token := none })).outcomes =
      [(0, Outcome.rejectedRefresh RefreshError.noRefreshCredential)] ∧
    (handleError exFail401
        (initState { access_token := some "T1", refresh_token := none })).location =
      some "/login" := by
  have h := no_refresh_credential_fails_fast exFail401
    (initState { access_token := some "T1", refresh_token := none })
    rfl (by decide) rfl (by decide)
  exact ⟨h.1, h.2.1, h.2.2.2.1⟩

/-- C7: a request already marked retried that fails again with 401 never
re-enters the refresh flow — the handler only records the rejection of the
original error — and in the concrete always-401 scenario the refresh call
is attempted exactly once, after which the triggering request ultimately
fails with its original 401. -/
theorem retried_401_not_refreshed_again :
    (∀ (e : FailedResponse) (s : InterceptorState),
      e.status = some 401 → e.reqId ∈ s.retried →
      handleError e s =
        { s with outcomes := s.outcomes ++ [(e.reqId, Outcome.rejectedOriginal (some 401))] }) ∧
    (run (initState exStorage)
        [Event.fail exFail401, Event.refreshOk "T2" "R2", Event.fail exFail401]).refreshCalls = 1 ∧
    (run (initState exStorage)
        [Event.fail exFail401, Event.refreshOk "T2" "R2", Event.fail exFail401]).outcomes =
      [(0, Outcome.rejectedOriginal (some 401))] ∧
    (run (initState exStorage)
        [Event.fail exFail401, Event.refreshOk "T2" "R2", Event.fail exFail401]).isRefreshing =
      false := by
  refine ⟨fun e s h1 h2 => handleError_retried401 e s h1 h2, ?_, ?_, ?_⟩ <;> decide

/-- C7 witness: the universally quantified part applied to the state in
which the fixture request is already marked retried. -/
theorem retried_401_not_refreshed_again_witness :
    handleError exFail401 exRefreshing =
      { exRefreshing with
          outcomes := exRefreshing.outcomes ++
            [(0, Outcome.rejectedOriginal (some 401))] } := by
  exact retried_401_not_refreshed_again.1 exFail401 exRefreshing rfl (by decide)

/-- C8: the fulfilled response interceptor is the identity — a successful
response is returned unchanged and no state is touched: no refresh call,
no navigation, no toast, no session mutation. -/
theorem success_classifier_identity (r : AxResponse) (s : InterceptorState) :
    onResponse r s = (r, s) ∧
    (onResponse r s).1 = r ∧
    (onResponse r s).2.refreshCalls = s.refreshCalls ∧
    (onResponse r s).2.location = s.location ∧
    (onResponse r s).2.toasts = s.toasts ∧
    (onResponse r s).2.session = s.session :=
  ⟨rfl, rfl, rfl, rfl, rfl, rfl⟩

/-- C9: in every state reachable from load, the pending queue is non-empty
only while the refresh-in-progress flag is set; both settlement paths
factor as a full drain (queue emptied, one replay or one rejection per
entry plus the trigger, the flag still untouched at that point) followed
by the unconditional clearing of the flag. -/
theorem queue_refresh_invariant :
    (∀ (st : Storage) (evs : List Event),
      (run (initState st) evs).failedQueue ≠ [] →
      (run (initState st) evs).isRefreshing = true) ∧
    (∀ (t2 rt2 : String) (s : InterceptorState),
      handleRefreshOk t2 rt2 s =
        clearRefreshing (processQueueOk (replayTrigger (persistNewTokens t2 rt2 s))) ∧
      (processQueueOk (replayTrigger (persistNewTokens t2 rt2 s))).failedQueue = [] ∧
      (processQueueOk (replayTrigger (persistNewTokens t2 rt2 s))).isRefreshing =
        s.isRefreshing ∧
      (handleRefreshOk t2 rt2 s).isRefreshing = false ∧
      (handleRefreshOk t2 rt2 s).replays.map Prod.fst =
        s.replays.map Prod.fst ++ triggerIds s ++ s.failedQueue.map Prod.fst) ∧
    (∀ (err : RefreshError) (s : InterceptorState),
      handleRefreshErr err s =
        clearRefreshing (rejectTrigger err (navigate "/login" (clearTokens (processQueueErr err s)))) ∧
      (processQueueErr err s).failedQueue = [] ∧
      (processQueueErr err s).isRefreshing = s.isRefreshing ∧
      (handleRefreshErr err s).isRefreshing = false ∧
      (handleRefreshErr err s).outcomes.map Prod.fst =
        s.outcomes.map Prod.fst ++ s.failedQueue.map Prod.fst ++ triggerIds s) := by
  refine ⟨?_, ?_, ?_⟩
  · intro st evs
    exact inv_run evs (initState st) (fun h => absurd rfl h)
  · intro t2 rt2 s
    have hP := persistNewTokens_untouched t2 rt2 s
    have hT := replayTrigger_untouched (persistNewTokens t2 rt2 s)
    refine ⟨rfl, rfl, ?_, ?_, ?_⟩
    · rw [show (processQueueOk (replayTrigger (persistNewTokens t2 rt2 s))).isRefreshing =
          (replayTrigger (persistNewTokens t2 rt2 s)).isRefreshing from rfl, hT.1, hP.1]
    · rfl
    · rw [show (handleRefreshOk t2 rt2 s).replays =
          (replayTrigger (persistNewTokens t2 rt2 s)).replays ++
            (replayTrigger (persistNewTokens t2 rt2 s)).failedQueue.map
              (fun rc => (rc.1, (requestInterceptor
                (replayTrigger (persistNewTokens t2 rt2 s)).storage rc.2).authorization))
          from rfl]
      rw [List.map_append, hT.2.2, hP.2.2.1, hP.2.2.2, hT.2.1, hP.2.1]
      simp [List.map_map, Function.comp_def]
  · intro err s
    refine ⟨rfl, rfl, rfl, rfl, ?_⟩
    rw [handleRefreshErr_eq]
    cases htr : s.trigger <;> simp [triggerIds, htr, List.map_map, Function.comp_def]

/-- C9 witness: a run in which a second 401 is queued while the first
started the refresh — the queue is non-empty, hence the flag is set. -/
theorem queue_refresh_invariant_witness :
    (run (initState exStorage)
        [Event.fail exFail401, Event.fail exFail401b]).isRefreshing = true := by
  exact queue_refresh_invariant.1 exStorage
    [Event.fail exFail401, Event.fail exFail401b] (by decide)

/-- C10: the refresh network call is sent with the expired access token
attached: although the response interceptor issues it with an explicitly
cleared Authorization header, the request interceptor overwrites that
header with the stored Bearer token whenever a truthy access token is
persisted, so the cleared header never reaches the server. -/
theorem refresh_request_sends_expired_token (st : Storage) (t : String)
    (hacc : st.access_token = some t) (ht : t ≠ "") :
    (requestInterceptor st refreshRequestConfig).authorization =
      some ("Bearer " ++ t) ∧
    (requestInterceptor st refreshRequestConfig).authorization ≠ some "" := by
  have h1 : (requestInterceptor st refreshRequestConfig).authorization =
      some ("Bearer " ++ t) := by
    simp [requestInterceptor, hacc, ht]
  refine ⟨h1, ?_⟩
  rw [h1]
  intro h
  exact bearer_ne_empty t (Option.some.inj h)

/-- C10 witness: with the expired token T1 persisted, the refresh request
goes out with Authorization Bearer T1 instead of the cleared header. -/
theorem refresh_request_sends_expired_token_witness :
    (requestInterceptor exStorage refreshRequestConfig).authorization =
      some ("Bearer " ++ "T1") ∧
    (requestInterceptor exStorage refreshRequestConfig).authorization ≠ some "" := by
  exact refresh_request_sends_expired_token exStorage "T1" rfl (by decide)

end Interceptors
